import Mathlib

/-!
Verification development for the LLMAgentCreator flow-execution engine.

This file shallowly embeds the Python source of the repository's core:

* `safe_format`            — `app/services/agent_runtime.py` lines 14-35
                             (textually identical to `Node.safe_format`,
                             `app/services/node.py` lines 71-92);
* `extract_params_via_llm` — `app/services/agent_runtime.py` lines 38-91;
* `process_node`           — `app/services/agent_runtime.py` lines 101-257;
* `send_message` / `create_session` — `app/api/sessions.py`;
* the class-based node variants of `app/services/node.py`
  (`WaitForUserInputNode.process`, `WebhookNode.extract_params_via_llm`,
  `WebhookNode.process`, `ConditionalLLMNode.process`).

External collaborators (the LLM chat client, the outbound webhook HTTP
client, `json.loads`, and the knowledge service) are modelled as oracle
functions bundled in an `ExtSvc` structure; Python exceptions are modelled
with `Except String`, a Python function that can return `None` with
`Option`.  Python dicts are association lists with first-match lookup,
kept key-unique by insert-with-overwrite.
-/

/-- A value in a Python-style nested context mapping (string leaves and
nested dicts are the shapes the engine actually passes around). -/
inductive Value where
  | str (s : String)
  | dict (entries : List (String × Value))

/-- A context mapping, e.g. the `user_input` dict `{'user_text': ...}`. -/
abbrev Ctx := List (String × Value)

/-- Python whitespace characters recognised by `str.strip()`. -/
def pyWS (c : Char) : Bool :=
  c = ' ' ∨ c = '\t' ∨ c = '\n' ∨ c = '\r' ∨ c = '\x0b' ∨ c = '\x0c'

/-- `str.strip()` on a character list. -/
def pyStripL (l : List Char) : List Char :=
  ((l.dropWhile pyWS).reverse.dropWhile pyWS).reverse

/-- `str.strip()`. -/
def pyStrip (s : String) : String := ⟨pyStripL s.toList⟩

mutual
/-- Python `str()` applied to a context value (dicts render like Python
dict reprs; the engine only ever stringifies leaves in practice). -/
def pyStrOfValue : Value → String
  | .str s => s
  | .dict es => "\x7b" ++ String.intercalate ", " (pyReprEntries es) ++ "\x7d"

/-- Python `repr()` of a value, for rendering dict entries. -/
def pyReprOfValue : Value → String
  | .str s => "'" ++ s ++ "'"
  | .dict es => "\x7b" ++ String.intercalate ", " (pyReprEntries es) ++ "\x7d"

/-- Renders the entries of a dict like Python's dict repr. -/
def pyReprEntries : List (String × Value) → List String
  | [] => []
  | (k, v) :: rest => ("'" ++ k ++ "': " ++ pyReprOfValue v) :: pyReprEntries rest
end

/-- `re.split(r"[.\[\]']", path)` keeps splitting on any of `.`(dot),
`[`, `]`, `'`; this recogniser marks the separator characters. -/
def isPathSep (c : Char) : Bool :=
  c = '.' ∨ c = '[' ∨ c = ']' ∨ c = '\''

/-- Splitting a path on separator characters (before dropping empties). -/
def splitPathAux (acc : List Char) : List Char → List (List Char)
  | [] => [acc.reverse]
  | c :: rest =>
    if isPathSep c then acc.reverse :: splitPathAux [] rest
    else splitPathAux (c :: acc) rest

/-- `parts = re.split(r"[.\[\]']", path); parts = [p for p in parts if p]`. -/
def splitPath (l : List Char) : List (List Char) :=
  (splitPathAux [] l).filter (· ≠ [])

/-- The loop body of `get_value` in `safe_format`: walk the context one
path segment at a time; a missing key substitutes `<missing:seg>` (and the
walk continues on that string), a non-dict intermediate value yields
`<invalid:seg>` immediately. -/
def getValueWalk : Value → List (List Char) → Value
  | v, [] => v
  | v, p :: rest =>
    match v with
    | .dict es =>
        getValueWalk ((es.lookup ⟨p⟩).getD (.str ("<missing:" ++ ⟨p⟩ ++ ">"))) rest
    | .str _ =>
        .str ("<invalid:" ++ (⟨p⟩ : String) ++ ">")

/-- `replacer`: strip the captured expression, split it into path
segments, walk the context and stringify the result. -/
def replacer (ctx : Ctx) (expr : List Char) : List Char :=
  (pyStrOfValue (getValueWalk (.dict ctx) (splitPath (pyStripL expr)))).toList

/-- Scanning for the body of a `{expr}` placeholder: after an opening
brace, collect characters other than braces; succeed on a closing brace
with a nonempty body (the regex body is `[^{}]+`), fail on a second
opening brace or end of input. -/
def scanExpr (acc : List Char) : List Char → Option (List Char × List Char)
  | [] => none
  | c :: rest =>
    if c = '\x7d' then
      if acc.isEmpty then none else some (acc.reverse, rest)
    else if c = '\x7b' then none
    else scanExpr (c :: acc) rest

/-- `re.sub(r"{([^{}]+)}", replacer, template)`: non-overlapping
leftmost matches; a failed match attempt at an opening brace emits that
brace and resumes one character later (only an opening brace can start a
match).  Fuel-structured; fuel ≥ input length makes it total. -/
def substAux (rep : List Char → List Char) : Nat → List Char → List Char
  | _, [] => []
  | 0, l => l
  | fuel + 1, c :: rest =>
    if c = '\x7b' then
      match scanExpr [] rest with
      | some (expr, rest2) => rep expr ++ substAux rep fuel rest2
      | none => c :: substAux rep fuel rest
    else c :: substAux rep fuel rest

/-- `safe_format(template, context)` from `agent_runtime.py` (and,
verbatim the same code, `Node.safe_format` in `node.py`).  Total: the
embedding needed no exception channel, mirroring that the Python never
raises. -/
def safe_format (template : String) (context : Ctx) : String :=
  ⟨substAux (replacer context) template.toList.length template.toList⟩

/-- Whether the template contains at least one `{expr}` placeholder, i.e.
whether `re.sub` would find any match. -/
def hasPlaceholder : List Char → Bool
  | [] => false
  | c :: rest =>
    if c = '\x7b' then (scanExpr [] rest).isSome || hasPlaceholder rest
    else hasPlaceholder rest

/-- Digit run of Python `int()`, allowing single underscores strictly
between digits. -/
def pyIntDigits (acc : Nat) : List Char → Option Nat
  | [] => some acc
  | c :: rest =>
    if c.isDigit then pyIntDigits (acc * 10 + (c.toNat - 48)) rest
    else if c = '_' then
      match rest with
      | [] => none
      | d :: rest2 =>
        if d.isDigit then pyIntDigits (acc * 10 + (d.toNat - 48)) rest2
        else none
    else none

/-- Leading digit followed by a digit run. -/
def pyIntBody : List Char → Option Nat
  | [] => none
  | c :: rest => if c.isDigit then pyIntDigits (c.toNat - 48) rest else none

/-- Python `int(s)`: strip whitespace, optional sign, decimal digits
(with underscores between digits); `none` models `ValueError`. -/
def pyInt (s : String) : Option Int :=
  match pyStripL s.toList with
  | '+' :: rest => (pyIntBody rest).map Int.ofNat
  | '-' :: rest => (pyIntBody rest).map (fun n => -(n : Int))
  | l => (pyIntBody l).map Int.ofNat

example : pyInt "3" = some 3 := by decide
example : pyInt "abc" = none := by decide
example : pyInt " -12 " = some (-12) := by decide
example : pyInt "1_0" = some 10 := by decide
example : pyInt "_1" = none := by decide
example : safe_format "Hi \x7bname\x7d" [("user_text", .str "")] = "Hi <missing:name>" := by decide
example : safe_format "You said: \x7buser_text\x7d" [("user_text", .str "hello")] = "You said: hello" := by decide
example : safe_format "plain" [] = "plain" := by decide

/-- A JSON value as returned inside the LLM extraction reply (the shapes
the engine distinguishes: `null` is discarded, anything else kept raw). -/
inductive Jv where
  | null
  | str (s : String)
  | num (n : Int)
  | boolean (b : Bool)
deriving DecidableEq

/-- A value bound in the `found_params` mapping handed to the webhook
collaborator: fixed parameters are bound to the nested record
`{'value': ..., 'description': ...}`, dynamically extracted ones to the
raw JSON value from the LLM reply. -/
inductive PVal where
  | fixedRec (value : String) (description : String)
  | raw (v : Jv)
deriving DecidableEq

/-- One entry of a webhook node's `params` list: `{name, description,
value?}`; a parameter is *fixed* when `"value" in p and p['value']`
(key present and truthy). -/
structure Param where
  name : String
  description : String
  value : Option String := none
deriving DecidableEq

/-- Whether a param is fixed (`"value" in p and p['value']`). -/
def Param.isFixed (p : Param) : Bool :=
  match p.value with
  | some v => v ≠ ""
  | none => false

/-- One entry of a `conditional_llm` node's `branches` list
(`condition_text` is indexed unconditionally by the source, `next_node`
is read with `.get`). -/
structure Branch where
  condition_text : String
  next_node : Option String := none
deriving DecidableEq

instance : Inhabited Branch := ⟨⟨"", none⟩⟩

/-- The node dict as read by the dict-based runtime: required keys are
plain fields, keys read with `.get(...)` or whose absence the source
turns into a `KeyError` are `Option` fields. -/
structure NodeData where
  id : String
  type : String
  next : Option String := none
  text : Option String := none
  forced_text : Option String := none
  params : List Param := []
  missing_param_message : Option String := none
  action : Option String := none
  url : Option String := none
  on_success : Option String := none
  on_failure : Option String := none
  branches : List Branch := []
  default_branch : Option String := none

/-- The structured action payload attached to a webhook reply when
parameters are missing: `{"name": node["action"], "missing_params": [...]}`. -/
structure ActionP where
  name : String
  missing_params : List String
deriving DecidableEq

/-- The dict returned by `process_node` / the node classes' `process`
(`action` and `save_last_user_input` keys are absent from most variants,
modelled as `none`). -/
structure ProcResult where
  reply : String
  action : Option ActionP := none
  next_node : Option String := none
  conversation_id : Option String := none
  save_last_user_input : Option Ctx := none

/-- The dict returned by the LLM chat collaborator `chat_with_agent`. -/
structure ChatResp where
  reply : String
  conversation_id : Option String := none

/-- External collaborators, modelled as deterministic oracles.  `chat`
takes `(prompt, voice_id, conversation_id)` and may raise; `webhook`
takes `(url, payload)` and may raise; `jsonLoads` models `json.loads`
restricted to the shapes the source consumes (`none` covers both a parse
failure and a non-dict result, which the source's `except` collapses
into an empty dict); `knowledgeResults` yields the texts of the
embedding search hits for `(node_id, query)`. -/
structure ExtSvc where
  chat : String → String → Option String → Except String ChatResp
  webhook : String → List (String × PVal) → Except String String
  jsonLoads : String → Option (List (String × Jv))
  knowledgeResults : String → String → List String

/-- Python dict insert: overwrite in place when the key exists, append
otherwise (insertion order preserved, keys kept unique). -/
def dinsert {α : Type} (l : List (String × α)) (k : String) (v : α) : List (String × α) :=
  if l.any (·.1 = k) then l.map (fun p => if p.1 = k then (k, v) else p)
  else l ++ [(k, v)]

/-- `{**a, **b}`: start from `a` and insert every binding of `b`. -/
def pyMerge {α : Type} (a b : List (String × α)) : List (String × α) :=
  b.foldl (fun acc kv => dinsert acc kv.1 kv.2) a

/-- `str()` of an optional value as interpolated into an f-string
(`None` renders as the literal `None`). -/
def pyStrOfOpt : Option Value → String
  | none => "None"
  | some v => pyStrOfValue v

/-- `str(result)[:200] + ('...' if len > 200 else '')`. -/
def pyTrunc (s : String) : String :=
  (s.take 200) ++ (if s.length > 200 then "..." else "")

/-- `extract_params_via_llm` from `agent_runtime.py` lines 38-91: split
params into fixed and dynamic, ask the LLM for the dynamic ones, parse
its reply as JSON discarding `null` values, merge dynamic over fixed,
and report dynamic names absent from the parse as missing.  An exception
from the chat collaborator is *not* caught here. -/
def extract_params_via_llm (ext : ExtSvc) (user_input : Ctx) (params : List Param)
    (system_prompt voice_id : String) (conversation_id : Option String) :
    Except String (List (String × PVal) × List String × Option String) :=
  if params = [] then .ok ([], [], conversation_id)
  else
    let fixed_params : List (String × PVal) :=
      (params.filter (·.isFixed)).map
        (fun p => (p.name, PVal.fixedRec (p.value.getD "") p.description))
    let dynamic_params : List (String × String) :=
      (params.filter (fun p => ¬ p.isFixed)).map (fun p => (p.name, p.description))
    let param_descriptions :=
      String.intercalate "\n" (dynamic_params.map (fun nd => "- " ++ nd.1 ++ ": " ++ nd.2))
    if dynamic_params = [] then
      .ok (pyMerge fixed_params [], [], conversation_id)
    else
      let prompt :=
        system_prompt ++ "\n" ++
        "Ввод пользователя: '" ++ pyStrOfOpt (user_input.lookup "user_text") ++ "'\n" ++
        "Извлеки значения для следующих параметров:\n" ++ param_descriptions ++ "\n" ++
        "Верни JSON с найденными параметрами в формате 'PARAM_NAME': 'PARAM_VALUE'. " ++
        "Если параметр не найден — пропусти его. В ответ не отправляй ничего кроме самого JSON. " ++
        "Не используй оформлений"
      match ext.chat prompt voice_id conversation_id with
      | .error e => .error e
      | .ok response =>
        let conversation_id := response.conversation_id
        let found_dynamic : List (String × Jv) :=
          match ext.jsonLoads response.reply with
          | some kvs => kvs.filter (fun kv => kv.2 ≠ Jv.null)
          | none => []
        let found_params :=
          pyMerge fixed_params (found_dynamic.map (fun kv => (kv.1, PVal.raw kv.2)))
        let missing :=
          (dynamic_params.map (·.1)).filter (fun k => ¬ found_dynamic.any (·.1 = k))
        .ok (found_params, missing, conversation_id)

/-- `process_node` from `agent_runtime.py` lines 101-257 — the dict-based
node dispatcher actually imported by `app/api/sessions.py`.  `.error`
models an uncaught Python exception inside the call, `.ok none` models
the trailing `return None` for unhandled node types, `.ok (some r)` a
normal result dict.  (The in-place `user_input['result'] = result`
mutation on webhook success is unobservable to the callers embedded here,
which rebuild `user_input` literals per call, and is elided.) -/
def process_node (ext : ExtSvc) (_nodes : List (String × NodeData)) (node : NodeData)
    (user_input : Ctx) (system_prompt voice_id : String)
    (conversation_id : Option String) : Except String (Option ProcResult) :=
  if node.type = "message" then
    match node.text with
    | none => .error "KeyError: 'text'"
    | some t =>
      .ok (some { reply := safe_format t user_input,
                  next_node := node.next,
                  conversation_id := conversation_id })
  else if node.type = "forced_message" then
    let reply := node.forced_text.getD (node.text.getD "Forced message")
    .ok (some { reply := safe_format reply user_input,
                next_node := node.next,
                conversation_id := conversation_id })
  else if node.type = "webhook" then
    match extract_params_via_llm ext user_input node.params system_prompt voice_id conversation_id with
    | .error e => .error e
    | .ok (found_params, missing, conversation_id) =>
      if missing ≠ [] then
        match node.action with
        | none => .error "KeyError: 'action'"
        | some act =>
          .ok (some { reply := (match node.missing_param_message with
                                | some m => if m ≠ "" then m else "Не хватает данных"
                                | none => "Не хватает данных"),
                      action := some { name := act, missing_params := missing },
                      next_node := some node.id,
                      conversation_id := conversation_id })
      else
        let callOutcome : Except String String :=
          match node.url with
          | none => .error "KeyError: 'url'"
          | some u => ext.webhook u found_params
        match callOutcome with
        | .ok result =>
          .ok (some { reply := "Webhook " ++ node.action.getD "call" ++
                               " executed successfully: " ++ pyTrunc result,
                      next_node := node.on_success,
                      conversation_id := conversation_id })
        | .error e =>
          match node.action with
          | none => .error "KeyError: 'action'"
          | some act =>
            .ok (some { reply := "Ошибка вызова " ++ act ++ ": " ++ e,
                        next_node := node.on_failure,
                        conversation_id := conversation_id })
  else if node.type = "conditional_llm" then
    let branches := node.branches
    if branches = [] then
      .ok (some { reply := "Ошибка: не настроены условные ветки",
                  next_node := node.default_branch,
                  conversation_id := conversation_id })
    else
      let user_text := pyStrOfValue ((user_input.lookup "user_text").getD (.str ""))
      let conditions_text :=
        String.intercalate "\n"
          ((List.range branches.length).map
            (fun i => toString (i + 1) ++ ". " ++ (branches.getD i default).condition_text))
      let llm_prompt :=
        system_prompt ++ "\n" ++
        "Пользователь сказал: '" ++ user_text ++ "'\n" ++
        "Выбери наиболее подходящий вариант из следующих условий:\n" ++ conditions_text ++ "\n" ++
        "Ответь только номером варианта (1-" ++ toString branches.length ++ ") без дополнительных пояснений. " ++
        "Если ни один вариант не подходит, ответь 0."
      match ext.chat llm_prompt voice_id conversation_id with
      | .error e =>
        .ok (some { reply := "Ошибка при обработке условного ветвления: " ++ e,
                    next_node := node.default_branch,
                    conversation_id := conversation_id })
      | .ok response =>
        let conversation_id := response.conversation_id
        let choice := pyStrip response.reply
        match pyInt choice with
        | some choice_num =>
          if 1 ≤ choice_num ∧ choice_num ≤ branches.length then
            .ok (some { reply := "Выбрано условие: " ++
                                 (branches.getD (choice_num.toNat - 1) default).condition_text,
                        next_node := (branches.getD (choice_num.toNat - 1) default).next_node,
                        conversation_id := conversation_id })
          else
            .ok (some { reply := "Выбрано условие: по умолчанию",
                        next_node := node.default_branch,
                        conversation_id := conversation_id })
        | none =>
          -- `choice_num` is unbound after the ValueError, so the reply
          -- f-string raises NameError, caught by the outer
          -- `except Exception` which answers with the error reply and
          -- `default_branch`.
          .ok (some { reply := "Ошибка при обработке условного ветвления: " ++
                               "name 'choice_num' is not defined",
                      next_node := node.default_branch,
                      conversation_id := conversation_id })
  else if node.type = "knowledge" then
    match user_input.lookup "user_text" with
    | none => .error "KeyError: 'user_text'"
    | some q =>
      let results := ext.knowledgeResults node.id (pyStrOfValue q)
      let reply := results.foldl (fun acc t => acc ++ t ++ "\n") ""
      .ok (some { reply := pyStrip reply,
                  next_node := node.next,
                  conversation_id := conversation_id })
  else
    .ok none

/-- Persisted per-conversation state of `SessionModel` (the fields the
executor reads and writes; both default to SQL `NULL`). -/
structure SessionSt where
  current_node : Option String := none
  conversation_id : Option String := none
deriving DecidableEq

/-- The agent fields consumed by the session endpoints: `logic["nodes"]`
(in list order), `logic.get("start_node")`, `system_prompt`, `voice_id`. -/
structure AgentL where
  nodes : List NodeData
  start_node : Option String := none
  system_prompt : String := ""
  voice_id : String := ""

/-- The `MessageOut` response schema (keys the endpoints actually set). -/
structure MsgOut where
  reply : String
  next_node : Option String := none
  conversation_id : Option String := none
  messages : Option (List String) := none

/-- An agent message recorded during the turn: `(text, action)`. -/
abbrev AgentMsg := String × Option ActionP

/-- `nodes = {n["id"]: n for n in logic.get("nodes", [])}` — a Python
dict comprehension: later duplicates overwrite in place. -/
def mkNodes (ns : List NodeData) : List (String × NodeData) :=
  ns.foldl (fun acc n => dinsert acc n.id n) []

/-- Python truthiness of an optional string (`None` and `""` are falsy). -/
def pyTruthy : Option String → Bool
  | none => false
  | some s => s ≠ ""

/-- The cursor-resolution preamble shared by `send_message` and
`trigger_forced_messages`: prefer a truthy `session.current_node` that
names an existing node, else a truthy `start_node` that does, else the
first node of the dict; then the endpoint's `if not node_id` /
`if node_id not in nodes` guards raise HTTP 400 (modelled as `none`)
when the chosen id is falsy — `None` or the empty string — or absent
from the dict. -/
def resolveCandidate (nodes : List (String × NodeData)) (current : Option String)
    (start : Option String) : Option String :=
  if pyTruthy current ∧ (nodes.lookup (current.getD "")).isSome then current
  else if pyTruthy start ∧ (nodes.lookup (start.getD "")).isSome then start
  else nodes.head?.map (·.1)

/-- The endpoint's guards after the fallback chain:
`if not node_id: raise` (falsy — `None` or `""`) and
`if node_id not in nodes: raise`, both modelled as `none`. -/
def resolveNodeId (nodes : List (String × NodeData)) (current : Option String)
    (start : Option String) : Option String :=
  let node_id := resolveCandidate nodes current start
  if pyTruthy node_id ∧ (nodes.lookup (node_id.getD "")).isSome then node_id else none

/-- The shared forced-message `while` loop of `sessions.py` (lines 45-77,
169-204 and 240-271): as long as the cursor is a Python-truthy id (the
guard `current_node_id and ...` treats the empty string like `None`)
naming an existing `forced_message` node and the chain counter has
budget, process the node with empty user input, record its reply, adopt
its `conversation_id` and `next_node` (adopted even when the `next_node`
does not resolve — the `break` fires only after the assignment).
Returns the final cursor, conversation id, accumulated messages, and
remaining budget. -/
def forcedChain (ext : ExtSvc) (nodes : List (String × NodeData))
    (system_prompt voice_id : String) :
    Nat → Option String → Option String → List AgentMsg →
    Except String (Option String × Option String × List AgentMsg × Nat)
  | 0, cur, conv, msgs => .ok (cur, conv, msgs, 0)
  | fuel + 1, cur, conv, msgs =>
    match cur with
    | none => .ok (none, conv, msgs, fuel + 1)
    | some id =>
      if id = "" then .ok (some id, conv, msgs, fuel + 1)
      else
        match nodes.lookup id with
        | none => .ok (some id, conv, msgs, fuel + 1)
        | some nd =>
          if nd.type = "forced_message" then
            match process_node ext nodes nd [("user_text", .str "")] system_prompt voice_id conv with
            | .error e => .error e
            | .ok none => .error "TypeError: 'NoneType' object is not subscriptable"
            | .ok (some r) =>
              forcedChain ext nodes system_prompt voice_id fuel
                r.next_node r.conversation_id (msgs ++ [(r.reply, r.action)])
          else .ok (some id, conv, msgs, fuel + 1)

/-- `send_message` from `app/api/sessions.py` lines 113-296 (the
HTTP-404 guards for a missing session/agent are upstream of the state
passed in here).  The post-chain step runs under the guard
`if current_node_id and current_node_id in nodes:`, whose truthiness
test skips a falsy (empty-string) cursor as well as `None`.  Returns
the response body and the committed session row; `.error` models an
uncaught exception escaping the endpoint. -/
def send_message (ext : ExtSvc) (agent : AgentL) (sess : SessionSt) (msgText : String) :
    Except String (MsgOut × SessionSt) :=
  let nodes := mkNodes agent.nodes
  match resolveNodeId nodes sess.current_node agent.start_node with
  | none => .error "HTTPException 400: No nodes found in agent logic"
  | some node_id =>
    match forcedChain ext nodes agent.system_prompt agent.voice_id 10
        (some node_id) sess.conversation_id [] with
    | .error e => .error e
    | .ok (cur1, conv1, msgs1, fuel1) =>
      let step : Except String (Option String × Option String × List AgentMsg) :=
        match cur1 with
        | some id =>
          if id = "" then .ok (cur1, conv1, msgs1)
          else
          match nodes.lookup id with
          | some nd =>
            if nd.type ≠ "forced_message" then
              match process_node ext nodes nd [("user_text", .str msgText)]
                  agent.system_prompt agent.voice_id conv1 with
              | .error e => .error e
              | .ok none => .error "TypeError: 'NoneType' object is not subscriptable"
              | .ok (some r) =>
                match forcedChain ext nodes agent.system_prompt agent.voice_id fuel1
                    r.next_node r.conversation_id (msgs1 ++ [(r.reply, r.action)]) with
                | .error e => .error e
                | .ok (cur2, conv2, msgs2, _) => .ok (cur2, conv2, msgs2)
            else .ok (cur1, conv1, msgs1)
          | none => .ok (cur1, conv1, msgs1)
        | none => .ok (cur1, conv1, msgs1)
      match step with
      | .error e => .error e
      | .ok (curF, convF, msgsF) =>
        let sess' : SessionSt :=
          { current_node := curF,
            conversation_id := if pyTruthy convF then convF else sess.conversation_id }
        if msgsF ≠ [] then
          let texts := msgsF.map (·.1)
          .ok ({ reply := if texts.length = 1 then texts.headD "" else "",
                 messages := some texts,
                 next_node := curF,
                 conversation_id := convF }, sess')
        else
          .ok ({ reply := "No response generated",
                 next_node := curF,
                 conversation_id := convF }, sess')

/-- `create_session` from `app/api/sessions.py` lines 16-103, starting
after the session row is inserted with `current_node = NULL`: when the
graph's start node exists and is a `forced_message`, run the forced
chain from it and commit the final cursor; otherwise leave the fresh
session untouched and answer with the raw `start_node`. -/
def create_session (ext : ExtSvc) (agent : AgentL) :
    Except String (MsgOut × SessionSt) :=
  let sess0 : SessionSt := { current_node := none, conversation_id := none }
  let nodes := mkNodes agent.nodes
  let basic : MsgOut :=
    { reply := "", next_node := agent.start_node, conversation_id := none }
  match agent.start_node with
  | none => .ok (basic, sess0)
  | some s =>
    if pyTruthy (some s) ∧ (nodes.lookup s).isSome then
      match nodes.lookup s with
      | none => .ok (basic, sess0)
      | some nd =>
        if nd.type = "forced_message" then
          match forcedChain ext nodes agent.system_prompt agent.voice_id 10
              (some s) none [] with
          | .error e => .error e
          | .ok (cur, conv, msgs, _) =>
            let sess' : SessionSt :=
              { current_node := cur,
                conversation_id := if pyTruthy conv then conv else none }
            if msgs ≠ [] then
              let texts := msgs.map (·.1)
              .ok ({ reply := if texts.length = 1 then texts.headD "" else "",
                     messages := some texts,
                     next_node := cur,
                     conversation_id := conv }, sess')
            else .ok (basic, sess')
        else .ok (basic, sess0)
    else .ok (basic, sess0)

/-- `WaitForUserInputNode.process` from `node.py` lines 95-112: no reply,
pass the cursor to `self.next`, and hand the raw `user_input` back as
`save_last_user_input`.  Pure — the source touches no external service,
and the embedding accordingly needs no oracle and no exception channel. -/
def WaitForUserInputNode.process (nd : NodeData) (user_input : Option Ctx)
    (_system_prompt _voice_id : String) (conversation_id : Option String)
    (_last_user_input : Option Ctx) : ProcResult :=
  { reply := "",
    next_node := nd.next,
    conversation_id := conversation_id,
    save_last_user_input := user_input }

/-- `WebhookNode.extract_params_via_llm` from `node.py` lines 215-276:
identical logic to the module-level `extract_params_via_llm` (fixed
vs. dynamic split, LLM extraction of the dynamic ones, `null` values
dropped before the missing-check) with an English prompt. -/
def WebhookNode.extract_params_via_llm (ext : ExtSvc) (nd : NodeData)
    (user_input : Ctx) (params : List Param)
    (system_prompt voice_id : String) (conversation_id : Option String) :
    Except String (List (String × PVal) × List String × Option String) :=
  let _ := nd
  if params = [] then .ok ([], [], conversation_id)
  else
    let fixed_params : List (String × PVal) :=
      (params.filter (·.isFixed)).map
        (fun p => (p.name, PVal.fixedRec (p.value.getD "") p.description))
    let dynamic_params : List (String × String) :=
      (params.filter (fun p => ¬ p.isFixed)).map (fun p => (p.name, p.description))
    let param_descriptions :=
      String.intercalate "\n" (dynamic_params.map (fun nd => "- " ++ nd.1 ++ ": " ++ nd.2))
    if dynamic_params = [] then
      .ok (pyMerge fixed_params [], [], conversation_id)
    else
      let prompt :=
        system_prompt ++ "\n" ++
        "User input: '" ++ pyStrOfOpt (user_input.lookup "user_text") ++ "'\n" ++
        "Extract values for the following parameters:\n" ++ param_descriptions ++ "\n" ++
        "Return JSON with found parameters in format 'PARAM_NAME': 'PARAM_VALUE'. " ++
        "If a parameter is not found, skip it. Return only the JSON without any formatting."
      match ext.chat prompt voice_id conversation_id with
      | .error e => .error e
      | .ok response =>
        let conversation_id := response.conversation_id
        let found_dynamic : List (String × Jv) :=
          match ext.jsonLoads response.reply with
          | some kvs => kvs.filter (fun kv => kv.2 ≠ Jv.null)
          | none => []
        let found_params :=
          pyMerge fixed_params (found_dynamic.map (fun kv => (kv.1, PVal.raw kv.2)))
        let missing :=
          (dynamic_params.map (·.1)).filter (fun k => ¬ found_dynamic.any (·.1 = k))
        .ok (found_params, missing, conversation_id)

/-- `WebhookNode.process` from `node.py` lines 283-342: extract params
from `last_user_input` (or `{}`); when any are missing answer with
`missing_param_message` (default `"Missing data"`), the action payload
and `next_node = self.id`; otherwise call the webhook, routing success
to `on_success` and any exception to `on_failure`.  The
`save_node_output` bookkeeping writes are not consulted by anything
modelled here and are elided. -/
def WebhookNode.process (ext : ExtSvc) (nd : NodeData) (_user_input : Option Ctx)
    (system_prompt voice_id : String) (conversation_id : Option String)
    (last_user_input : Option Ctx) : Except String ProcResult :=
  let context := last_user_input.getD []
  let params := nd.params
  match WebhookNode.extract_params_via_llm ext nd context params
      system_prompt voice_id conversation_id with
  | .error e => .error e
  | .ok (found_params, missing, conversation_id) =>
    if missing ≠ [] then
      let missing_message := nd.missing_param_message.getD "Missing data"
      match nd.action with
      | none => .error "KeyError: 'action'"
      | some act =>
        .ok { reply := missing_message,
              action := some { name := act, missing_params := missing },
              next_node := some nd.id,
              conversation_id := conversation_id }
    else
      let callOutcome : Except String String :=
        match nd.url with
        | none => .error "KeyError: 'url'"
        | some u => ext.webhook u found_params
      match callOutcome with
      | .ok result =>
        .ok { reply := "Webhook " ++ nd.action.getD "call" ++
                       " executed successfully: " ++ pyTrunc result,
              next_node := nd.on_success,
              conversation_id := conversation_id }
      | .error e =>
        match nd.action with
        | none => .error "KeyError: 'action'"
        | some act =>
          .ok { reply := "Error calling " ++ act ++ ": " ++ e,
                next_node := nd.on_failure,
                conversation_id := conversation_id }

/-- `ConditionalLLMNode.process` from `node.py` lines 348-418: with no
branches answer a configuration-error reply and fall to
`default_branch`; otherwise ask the LLM for a 1-based branch number —
a valid index selects that branch's `next_node`, while `0`, an
out-of-range number, a non-numeric reply, or an exception from the LLM
call all fall back to `default_branch`.  The reply is `""` in every
branch-selection outcome. -/
def ConditionalLLMNode.process (ext : ExtSvc) (nd : NodeData) (_user_input : Option Ctx)
    (system_prompt voice_id : String) (conversation_id : Option String)
    (last_user_input : Option Ctx) : ProcResult :=
  let context := last_user_input.getD []
  let branches := nd.branches
  if branches = [] then
    { reply := "Error: No conditional branches configured",
      next_node := nd.default_branch,
      conversation_id := conversation_id }
  else
    let user_text :=
      if context.isEmpty then ""
      else pyStrOfValue ((context.lookup "user_text").getD (.str ""))
    let conditions_text :=
      String.intercalate "\n"
        ((List.range branches.length).map
          (fun i => toString (i + 1) ++ ". " ++ (branches.getD i default).condition_text))
    let llm_prompt :=
      system_prompt ++ "\n" ++
      "User said: '" ++ user_text ++ "'\n" ++
      "Choose the most appropriate option from the following conditions:\n" ++ conditions_text ++ "\n" ++
      "Respond only with the option number (1-" ++ toString branches.length ++ ") without additional explanations. " ++
      "If none match, respond with 0."
    match ext.chat llm_prompt voice_id conversation_id with
    | .error _ =>
      { reply := "",
        next_node := nd.default_branch,
        conversation_id := conversation_id }
    | .ok response =>
      let conversation_id := response.conversation_id
      let choice := pyStrip response.reply
      match pyInt choice with
      | some choice_num =>
        if 1 ≤ choice_num ∧ choice_num ≤ branches.length then
          { reply := "",
            next_node := (branches.getD (choice_num.toNat - 1) default).next_node,
            conversation_id := conversation_id }
        else
          { reply := "",
            next_node := nd.default_branch,
            conversation_id := conversation_id }
      | none =>
        { reply := "",
          next_node := nd.default_branch,
          conversation_id := conversation_id }

/-- An oracle bundle for runs that never reach an external collaborator
(every call would raise, mirroring a network-less environment). -/
def extUnused : ExtSvc :=
  { chat := fun _ _ _ => .error "ConnectionError",
    webhook := fun _ _ => .error "ConnectionError",
    jsonLoads := fun _ => none,
    knowledgeResults := fun _ _ => [] }

/-- An oracle bundle whose LLM chat always answers `resp`. -/
def extChatOk (resp : ChatResp) : ExtSvc :=
  { chat := fun _ _ _ => .ok resp,
    webhook := fun _ _ => .error "ConnectionError",
    jsonLoads := fun _ => none,
    knowledgeResults := fun _ _ => [] }

/-- An oracle bundle whose LLM chat always raises `e`. -/
def extChatErr (e : String) : ExtSvc :=
  { chat := fun _ _ _ => .error e,
    webhook := fun _ _ => .error "ConnectionError",
    jsonLoads := fun _ => none,
    knowledgeResults := fun _ _ => [] }

/-- The three-node graph of the end-to-end scenario:
`start` (forced_message "Hi {name}" → `wait`), `wait`
(wait_for_user_input → `echo`), `echo` (forced_message
"You said: {user_text}" → `wait`). -/
def scenarioAgent : AgentL :=
  { nodes :=
      [ { id := "start", type := "forced_message",
          forced_text := some "Hi \x7bname\x7d", next := some "wait" },
        { id := "wait", type := "wait_for_user_input", next := some "echo" },
        { id := "echo", type := "forced_message",
          forced_text := some "You said: \x7buser_text\x7d", next := some "wait" } ],
    start_node := some "start" }

/-- A one-node graph whose only node's `next` dangles: a `message` node
`a` with `next = "bogus"` and no node named `bogus`. -/
def danglingAgent : AgentL :=
  { nodes := [ { id := "a", type := "message", text := some "hi",
                 next := some "bogus" } ],
    start_node := some "a" }

/-- A graph whose only node is a `message` node with no `text` key, so
processing it raises `KeyError` inside node processing. -/
def keyErrorAgent : AgentL :=
  { nodes := [ { id := "m", type := "message", next := none } ],
    start_node := some "m" }

/-- A graph whose only node is a `wait_for_user_input` node — a type the
dict-based dispatcher does not handle. -/
def waitOnlyAgent : AgentL :=
  { nodes := [ { id := "w", type := "wait_for_user_input",
                 next := some "w" } ],
    start_node := some "w" }

/-- An 11-node cyclic forced_message chain `f0 → f1 → ... → f10 → f0`
with no input-gating exit. -/
def cycleAgent : AgentL :=
  { nodes :=
      (List.range 11).map (fun i =>
        { id := "f" ++ toString i, type := "forced_message",
          forced_text := some ("msg" ++ toString i),
          next := some ("f" ++ toString ((i + 1) % 11)) }),
    start_node := some "f0" }

/-- Every node of the dict is a `forced_message` whose `next` resolves —
the shape of a forced chain with no input-gating exit. -/
def allForced (nodes : List (String × NodeData)) : Bool :=
  nodes.all (fun p =>
    p.2.type = "forced_message" &&
    match p.2.next with
    | some m => (nodes.lookup m).isSome
    | none => false)

/-- One `next`-hop from a node id. -/
def hop (nodes : List (String × NodeData)) (id : String) : Option String :=
  (nodes.lookup id).bind (·.next)

/-- `k` successive `next`-hops. -/
def hopN (nodes : List (String × NodeData)) : Nat → Option String → Option String
  | 0, cur => cur
  | k + 1, cur => hopN nodes k (cur.bind (hop nodes))

/-- A two-branch `conditional_llm` node with a default branch. -/
def condNode : NodeData :=
  { id := "c", type := "conditional_llm",
    branches := [{ condition_text := "cond1", next_node := some "b1" },
                 { condition_text := "cond2", next_node := some "b2" }],
    default_branch := some "dflt" }

/-- A webhook node with the single dynamic param `a` (description `d`). -/
def whNode : NodeData :=
  { id := "wh", type := "webhook",
    params := [{ name := "a", description := "d" }],
    action := some "doit", url := some "http://x",
    on_success := some "s", on_failure := some "f" }

/-- Oracles under which the LLM extraction reply parses to `{"a": null}`. -/
def extNullParam : ExtSvc :=
  { chat := fun _ _ _ => .ok { reply := "null-json", conversation_id := none },
    webhook := fun _ _ => .error "ConnectionError",
    jsonLoads := fun _ => some [("a", Jv.null)],
    knowledgeResults := fun _ _ => [] }

/-- A webhook node whose single param `a` is fixed to the literal `v`. -/
def whFixedNode : NodeData :=
  { id := "whf", type := "webhook",
    params := [{ name := "a", description := "d", value := some "v" }],
    action := some "doit", url := some "http://x",
    on_success := some "s", on_failure := some "f" }

/-- A webhook collaborator that succeeds exactly when the payload binds
`a` to the nested `{'value': 'v', 'description': 'd'}` record (thereby
observing what the node actually sent). -/
def extPayloadCheck : ExtSvc :=
  { chat := fun _ _ _ => .error "unused",
    webhook := fun _ payload =>
      if payload.lookup "a" = some (.fixedRec "v" "d") then .ok "nested-record-payload"
      else .error "bare-value-payload",
    jsonLoads := fun _ => none,
    knowledgeResults := fun _ _ => [] }

/-- A webhook node with a fixed param `a` and a dynamic param `b`. -/
def whMixedNode : NodeData :=
  { id := "whm", type := "webhook",
    params := [{ name := "a", description := "d", value := some "v" },
               { name := "b", description := "db" }],
    action := some "doit", url := some "http://x",
    on_success := some "s", on_failure := some "f" }

/-- Oracles for the mixed run: the extraction reply parses to
`{"b": "x"}`, and the webhook collaborator succeeds exactly when the
payload binds `a` to the nested record and `b` to the raw string. -/
def extMixedCheck : ExtSvc :=
  { chat := fun _ _ _ => .ok { reply := "json", conversation_id := none },
    webhook := fun _ payload =>
      if payload.lookup "a" = some (.fixedRec "v" "d") ∧
         payload.lookup "b" = some (.raw (.str "x")) then .ok "mixed-payload-ok"
      else .error "wrong-payload-shape",
    jsonLoads := fun _ => some [("b", Jv.str "x")],
    knowledgeResults := fun _ _ => [] }

/-- A template-key character that is not a brace, a path separator, or
whitespace (so the formatter treats the key as one plain segment). -/
def plainKeyChar (c : Char) : Bool :=
  ¬ (c = '\x7b' ∨ c = '\x7d' ∨ isPathSep c = true ∨ pyWS c = true)

/-- Every node id of the dict is Python-truthy (non-empty). -/
def allTruthyIds (nodes : List (String × NodeData)) : Bool :=
  nodes.all (fun p => ¬ p.1 = "")

/-- An 11-node cyclic forced chain `f0 → "" → f2 → ... → f10 → f0`
whose second node carries the falsy empty-string id. -/
def emptyIdCycleAgent : AgentL :=
  { nodes :=
      [ { id := "f0", type := "forced_message", forced_text := some "msg0", next := some "" },
        { id := "", type := "forced_message", forced_text := some "msg1", next := some "f2" },
        { id := "f2", type := "forced_message", forced_text := some "msg2", next := some "f3" },
        { id := "f3", type := "forced_message", forced_text := some "msg3", next := some "f4" },
        { id := "f4", type := "forced_message", forced_text := some "msg4", next := some "f5" },
        { id := "f5", type := "forced_message", forced_text := some "msg5", next := some "f6" },
        { id := "f6", type := "forced_message", forced_text := some "msg6", next := some "f7" },
        { id := "f7", type := "forced_message", forced_text := some "msg7", next := some "f8" },
        { id := "f8", type := "forced_message", forced_text := some "msg8", next := some "f9" },
        { id := "f9", type := "forced_message", forced_text := some "msg9", next := some "f10" },
        { id := "f10", type := "forced_message", forced_text := some "msg10", next := some "f0" } ],
    start_node := some "f0" }

/-- A forced-chain loop whose entry node is not a `forced_message` exits
immediately with its state (and full remaining budget) untouched. -/
theorem forcedChain_nonforced (ext : ExtSvc) (nodes : List (String × NodeData))
    (sp vid : String) (id : String) (nd : NodeData)
    (hlk : nodes.lookup id = some nd) (hty : ¬ nd.type = "forced_message") :
    ∀ (fuel : Nat) (conv : Option String) (msgs : List AgentMsg),
      forcedChain ext nodes sp vid fuel (some id) conv msgs =
        .ok (some id, conv, msgs, fuel)
  | 0, _, _ => rfl
  | _ + 1, _, _ => by simp [forcedChain, hlk, hty]

/-- A resolved cursor is Python-truthy and names a node of the dict
(the endpoint's two HTTP-400 guards enforce exactly this). -/
theorem resolveNodeId_truthy (nodes : List (String × NodeData))
    (cur start : Option String) (sid : String)
    (h : resolveNodeId nodes cur start = some sid) :
    ¬ sid = "" ∧ ((nodes.lookup sid).isSome) = true := by
  have h' : (if pyTruthy (resolveCandidate nodes cur start) ∧
        (nodes.lookup ((resolveCandidate nodes cur start).getD "")).isSome then
        resolveCandidate nodes cur start else none) = some sid := h
  split at h'
  · rename_i hc
    rw [h'] at hc
    exact ⟨by simpa [pyTruthy] using hc.1, by simpa using hc.2⟩
  · simp at h'

/-- C8: `wait_for_user_input.process` on any non-null `user_input`
returns an empty reply, `next_node = self.next`, and
`save_last_user_input = user_input`; the embedded function is pure
(takes no oracle), mirroring that the source calls no external service. -/
theorem wait_node_contract (nd : NodeData) (ui : Option Ctx) (sp vid : String)
    (conv : Option String) (lui : Option Ctx) (u : Ctx) (h : ui = some u) :
    WaitForUserInputNode.process nd ui sp vid conv lui =
      { reply := "", next_node := nd.next, conversation_id := conv,
        save_last_user_input := some u } := by
  subst h; rfl

/-- Witness for C8 at a concrete node and input. -/
theorem wait_node_contract_witness :
    WaitForUserInputNode.process
        { id := "w", type := "wait_for_user_input", next := some "n" }
        (some [("user_text", .str "hi")]) "" "" none none =
      { reply := "", next_node := some "n", conversation_id := none,
        save_last_user_input := some [("user_text", .str "hi")] } :=
  wait_node_contract _ _ "" "" none none [("user_text", .str "hi")] rfl

/-- C1: on the three-node scenario graph, session creation does produce
the single reply "Hi <missing:name>" and cursor `wait`; but the second
half of the scenario fails on the code: `send_message` with user text
"hello" crashes with an uncaught `TypeError`, because the dict-based
`process_node` wired into the endpoint returns `None` for the
`wait_for_user_input` node instead of the spec's "You said: hello"
behavior (which only the un-wired class runtime of `node.py`
implements). -/
theorem scenario_second_turn_crashes :
    create_session extUnused scenarioAgent =
      .ok ({ reply := "Hi <missing:name>", next_node := some "wait",
             conversation_id := none, messages := some ["Hi <missing:name>"] },
           { current_node := some "wait", conversation_id := none }) ∧
    send_message extUnused scenarioAgent
        { current_node := some "wait", conversation_id := none } "hello" =
      .error "TypeError: 'NoneType' object is not subscriptable" :=
  ⟨rfl, rfl⟩

/-- C2 counterexample: a `message` node `a` whose `next` is the
nonexistent id `bogus`.  Before the transition the cursor is `a`; after
the turn the persisted `session.current_node` is `bogus`, not `a` — the
executor does adopt the unresolvable cursor. -/
theorem dangling_next_overwrites_cursor :
    send_message extUnused danglingAgent
        { current_node := some "a", conversation_id := none } "x" =
      .ok ({ reply := "hi", next_node := some "bogus",
             conversation_id := none, messages := some ["hi"] },
           { current_node := some "bogus", conversation_id := none }) ∧
    (mkNodes danglingAgent.nodes).lookup "bogus" = none ∧
    some "bogus" ≠ some "a" :=
  ⟨rfl, rfl, by decide⟩

/-- C2 amended: whenever a turn completes without an exception, the
executor persists the final cursor variable verbatim —
`session.current_node` always equals the response's `next_node`, with no
filtering of unresolvable ids (tolerance of a dangling stored cursor
happens only at the next turn's resolution step). -/
theorem persisted_cursor_eq_final_next (ext : ExtSvc) (agent : AgentL)
    (sess : SessionSt) (msg : String) (out : MsgOut) (sess' : SessionSt)
    (h : send_message ext agent sess msg = .ok (out, sess')) :
    sess'.current_node = out.next_node := by
  simp only [send_message] at h
  split at h
  · exact absurd h (by simp)
  · split at h
    · exact absurd h (by simp)
    · split at h
      · exact absurd h (by simp)
      · split at h <;> (cases h; rfl)

/-- Witness for C2's amended theorem at the dangling-next graph. -/
theorem persisted_cursor_eq_final_next_witness :
    (SessionSt.mk (some "bogus") none).current_node =
      (MsgOut.mk "hi" (some "bogus") none (some ["hi"])).next_node :=
  persisted_cursor_eq_final_next extUnused danglingAgent
    { current_node := some "a", conversation_id := none } "x" _ _ rfl

/-- C4 counterexample: a `message` node with no `text` key makes node
processing raise `KeyError`, and `send_message` surfaces that exception
to its caller instead of answering a generic "error processing node"
reply with a null `next_node` — the executor has no such handler. -/
theorem node_exception_escapes_executor :
    send_message extUnused keyErrorAgent
        { current_node := some "m", conversation_id := none } "x" =
      .error "KeyError: 'text'" :=
  rfl

/-- C4 amended: an exception raised inside node processing propagates
uncaught out of the turn executor to its caller (only the webhook-call
and conditional-LLM handlers inside `process_node` catch their own
collaborator exceptions); there is no executor-level wrapper and no
"error processing node" reply. -/
theorem node_exception_propagates (ext : ExtSvc) (agent : AgentL)
    (sess : SessionSt) (msg : String) (sid : String) (nd : NodeData) (e : String)
    (hres : resolveNodeId (mkNodes agent.nodes) sess.current_node agent.start_node = some sid)
    (hlk : (mkNodes agent.nodes).lookup sid = some nd)
    (hty : ¬ nd.type = "forced_message")
    (hproc : process_node ext (mkNodes agent.nodes) nd [("user_text", .str msg)]
               agent.system_prompt agent.voice_id sess.conversation_id = .error e) :
    send_message ext agent sess msg = .error e := by
  have hne := (resolveNodeId_truthy _ _ _ _ hres).1
  simp only [send_message]
  rw [hres]
  simp [forcedChain_nonforced ext (mkNodes agent.nodes) agent.system_prompt
          agent.voice_id sid nd hlk hty, hlk, hty, hproc, hne]

/-- Witness for C4's amended theorem at the text-less message node. -/
theorem node_exception_propagates_witness :
    send_message extUnused keyErrorAgent
        { current_node := some "m", conversation_id := none } "x" =
      .error "KeyError: 'text'" :=
  node_exception_propagates extUnused keyErrorAgent
    { current_node := some "m", conversation_id := none } "x" "m"
    { id := "m", type := "message", next := none } "KeyError: 'text'"
    rfl rfl (by decide) rfl

/-- C5: the dict-based dispatcher handles exactly the five types
`message`, `forced_message`, `webhook`, `conditional_llm`, `knowledge`
and returns `None` for every other type (in particular
`wait_for_user_input` and `llm_request`); consequently a session whose
resolved current node has such a type makes `send_message` dereference
`None` (`result["reply"]`) and the turn dies with an uncaught
`TypeError`. -/
theorem unhandled_type_none_crashes :
    (∀ (ext : ExtSvc) (nodes : List (String × NodeData)) (nd : NodeData)
       (ui : Ctx) (sp vid : String) (conv : Option String),
       nd.type ∉ (["message", "forced_message", "webhook",
                   "conditional_llm", "knowledge"] : List String) →
       process_node ext nodes nd ui sp vid conv = .ok none) ∧
    (∀ (ext : ExtSvc) (agent : AgentL) (sess : SessionSt) (msg : String)
       (sid : String) (nd : NodeData),
       resolveNodeId (mkNodes agent.nodes) sess.current_node agent.start_node = some sid →
       (mkNodes agent.nodes).lookup sid = some nd →
       nd.type ∉ (["message", "forced_message", "webhook",
                   "conditional_llm", "knowledge"] : List String) →
       send_message ext agent sess msg =
         .error "TypeError: 'NoneType' object is not subscriptable") := by
  have hdisp : ∀ (ext : ExtSvc) (nodes : List (String × NodeData)) (nd : NodeData)
      (ui : Ctx) (sp vid : String) (conv : Option String),
      nd.type ∉ (["message", "forced_message", "webhook",
                  "conditional_llm", "knowledge"] : List String) →
      process_node ext nodes nd ui sp vid conv = .ok none := by
    intro ext nodes nd ui sp vid conv h
    simp only [List.mem_cons, List.mem_singleton, not_or] at h
    obtain ⟨h1, h2, h3, h4, h5, -⟩ := h
    simp [process_node, h1, h2, h3, h4, h5]
  refine ⟨hdisp, ?_⟩
  intro ext agent sess msg sid nd hres hlk h
  have hty : ¬ nd.type = "forced_message" := by
    simp only [List.mem_cons, List.mem_singleton, not_or] at h
    exact h.2.1
  have hne := (resolveNodeId_truthy _ _ _ _ hres).1
  simp only [send_message]
  rw [hres]
  simp [forcedChain_nonforced ext (mkNodes agent.nodes) agent.system_prompt
          agent.voice_id sid nd hlk hty, hlk, hty, hne,
        hdisp ext (mkNodes agent.nodes) nd _ _ _ _ h]

/-- Witness for C5 at a `wait_for_user_input` node and a one-node graph. -/
theorem unhandled_type_none_crashes_witness :
    process_node extUnused [] { id := "w", type := "wait_for_user_input" }
        [] "" "" none = .ok none ∧
    send_message extUnused waitOnlyAgent
        { current_node := some "w", conversation_id := none } "hi" =
      .error "TypeError: 'NoneType' object is not subscriptable" :=
  ⟨unhandled_type_none_crashes.1 extUnused [] _ [] "" "" none (by decide),
   unhandled_type_none_crashes.2 extUnused waitOnlyAgent
     { current_node := some "w", conversation_id := none } "hi" "w"
     { id := "w", type := "wait_for_user_input", next := some "w" }
     rfl rfl (by decide)⟩

/-- C7: for a `conditional_llm` node with a non-empty branch list, the
class runtime's `process` always replies with the empty string, and its
routing is: an LLM exception, a non-numeric reply, or a parsed number
outside `1..len(branches)` (including `0`) all fall back to
`default_branch`, while a valid index selects that branch's
`next_node`. -/
theorem conditional_llm_fallback (nd : NodeData) (ui lui : Option Ctx)
    (sp vid : String) (conv : Option String) (hb : nd.branches ≠ []) :
    (∀ e : String,
       (ConditionalLLMNode.process (extChatErr e) nd ui sp vid conv lui).reply = "" ∧
       (ConditionalLLMNode.process (extChatErr e) nd ui sp vid conv lui).next_node =
         nd.default_branch) ∧
    (∀ resp : ChatResp,
       (ConditionalLLMNode.process (extChatOk resp) nd ui sp vid conv lui).reply = "" ∧
       (pyInt (pyStrip resp.reply) = none →
         (ConditionalLLMNode.process (extChatOk resp) nd ui sp vid conv lui).next_node =
           nd.default_branch) ∧
       (∀ n : Int, pyInt (pyStrip resp.reply) = some n →
         ¬ (1 ≤ n ∧ n ≤ nd.branches.length) →
         (ConditionalLLMNode.process (extChatOk resp) nd ui sp vid conv lui).next_node =
           nd.default_branch) ∧
       (∀ n : Int, pyInt (pyStrip resp.reply) = some n →
         (1 ≤ n ∧ n ≤ nd.branches.length) →
         (ConditionalLLMNode.process (extChatOk resp) nd ui sp vid conv lui).next_node =
           (nd.branches.getD (n.toNat - 1) default).next_node)) := by
  constructor
  · intro e
    simp [ConditionalLLMNode.process, extChatErr, hb]
  · intro resp
    refine ⟨?_, ?_, ?_, ?_⟩
    · simp only [ConditionalLLMNode.process, extChatOk, if_neg hb]
      split
      · split <;> rfl
      · rfl
    · intro hpi
      simp [ConditionalLLMNode.process, extChatOk, hb, hpi]
    · intro n hpi hrange
      simp [ConditionalLLMNode.process, extChatOk, hb, hpi, hrange]
    · intro n hpi hrange
      simp [ConditionalLLMNode.process, extChatOk, hb, hpi, hrange]

/-- Witness for C7: with two branches, reply "3" is out of range and
falls to the default, "2" selects branch 2, "abc" replies silently, and
an LLM exception falls to the default. -/
theorem conditional_llm_fallback_witness :
    (ConditionalLLMNode.process (extChatOk { reply := "3" }) condNode none "" "" none none).next_node = some "dflt" ∧
    (ConditionalLLMNode.process (extChatOk { reply := "2" }) condNode none "" "" none none).next_node = some "b2" ∧
    (ConditionalLLMNode.process (extChatOk { reply := "abc" }) condNode none "" "" none none).reply = "" ∧
    (ConditionalLLMNode.process (extChatErr "boom") condNode none "" "" none none).next_node = some "dflt" :=
  ⟨((conditional_llm_fallback condNode none none "" "" none (by decide)).2
      { reply := "3" }).2.2.1 3 (by decide) (by decide),
   ((conditional_llm_fallback condNode none none "" "" none (by decide)).2
      { reply := "2" }).2.2.2 2 (by decide) (by decide),
   ((conditional_llm_fallback condNode none none "" "" none (by decide)).2
      { reply := "abc" }).1,
   ((conditional_llm_fallback condNode none none "" "" none (by decide)).1 "boom").2⟩

/-- C6: a dynamic webhook parameter whose extracted value is JSON `null`
is discarded before the missing-check and hence counted missing (shown
at params `[{name:"a", description:"d"}]` with extraction reply
`{"a": null}`); and whenever the missing list is non-empty, the webhook
node replies with its `missing_param_message` (default "Missing data"),
attaches the action name and missing list, and sets
`next_node = self.id` so only a retry on the same node can advance. -/
theorem webhook_null_missing_retry :
    (WebhookNode.extract_params_via_llm extNullParam whNode []
        [{ name := "a", description := "d" }] "" "" none =
      .ok ([], ["a"], none)) ∧
    (∀ (ext : ExtSvc) (nd : NodeData) (ui lui : Option Ctx) (sp vid : String)
       (conv conv' : Option String) (found : List (String × PVal))
       (missing : List String) (act : String),
       WebhookNode.extract_params_via_llm ext nd (lui.getD []) nd.params sp vid conv =
         .ok (found, missing, conv') →
       missing ≠ [] →
       nd.action = some act →
       WebhookNode.process ext nd ui sp vid conv lui =
         .ok { reply := nd.missing_param_message.getD "Missing data",
               action := some { name := act, missing_params := missing },
               next_node := some nd.id,
               conversation_id := conv' }) := by
  constructor
  · rfl
  · intro ext nd ui lui sp vid conv conv' found missing act hx hmiss hact
    simp [WebhookNode.process, hx, hmiss, hact]

/-- Witness for C6: running the webhook node end to end with the
null-extraction oracle produces the retry outcome. -/
theorem webhook_null_missing_retry_witness :
    WebhookNode.process extNullParam whNode none "" "" none none =
      .ok { reply := "Missing data",
            action := some { name := "doit", missing_params := ["a"] },
            next_node := some "wh",
            conversation_id := none } :=
  webhook_null_missing_retry.2 extNullParam whNode none none "" "" none none
    [] ["a"] "doit" rfl (by decide) rfl

/-- Lookup one step: head key hit. -/
theorem lookup_cons_eq {α : Type} (k : String) (b : α) (t : List (String × α)) :
    ((k, b) :: t).lookup k = some b := by
  simp [List.lookup]

/-- Lookup one step: head key miss. -/
theorem lookup_cons_ne {α : Type} (k a : String) (b : α) (t : List (String × α))
    (h : ¬ k = a) : ((a, b) :: t).lookup k = t.lookup k := by
  simp [List.lookup, beq_eq_false_iff_ne.mpr h]

/-- Overwriting an existing key produces no effect on lookups of a
different key (map part of `dinsert`). -/
theorem lookup_map_overwrite {α : Type} (k' k : String) (v : α) (h : ¬ k' = k) :
    ∀ l : List (String × α),
      (l.map (fun p => if p.1 = k' then (k', v) else p)).lookup k = l.lookup k
  | [] => rfl
  | (a, b) :: t => by
    have ht := lookup_map_overwrite k' k v h t
    by_cases hak : a = k'
    · have hka : ¬ k = a := fun e => h (by rw [hak] at e; exact e.symm)
      have hkk : ¬ k = k' := fun e => h e.symm
      rw [List.map_cons, if_pos (show (a, b).1 = k' from hak),
          lookup_cons_ne k k' v _ hkk, lookup_cons_ne k a b t hka, ht]
    · rw [List.map_cons, if_neg (show ¬ (a, b).1 = k' from hak)]
      by_cases hka : k = a
      · subst hka; rw [lookup_cons_eq, lookup_cons_eq]
      · rw [lookup_cons_ne k a b _ hka, lookup_cons_ne k a b t hka, ht]

/-- Appending a binding for a different key does not change lookups. -/
theorem lookup_append_singleton_ne {α : Type} (k' k : String) (v : α) (h : ¬ k' = k) :
    ∀ l : List (String × α), (l ++ [(k', v)]).lookup k = l.lookup k
  | [] => by
    rw [List.nil_append, lookup_cons_ne k k' v [] (fun e => h e.symm)]
  | (a, b) :: t => by
    by_cases hka : k = a
    · subst hka; rw [List.cons_append, lookup_cons_eq, lookup_cons_eq]
    · rw [List.cons_append, lookup_cons_ne k a b _ hka, lookup_cons_ne k a b t hka,
          lookup_append_singleton_ne k' k v h t]

/-- `dinsert` of a different key does not change lookups. -/
theorem lookup_dinsert_ne {α : Type} (l : List (String × α)) (k' k : String) (v : α)
    (h : ¬ k' = k) : (dinsert l k' v).lookup k = l.lookup k := by
  unfold dinsert
  split
  · exact lookup_map_overwrite k' k v h l
  · exact lookup_append_singleton_ne k' k v h l

/-- `{**a, **b}` lookups fall through to `a` for keys `b` never binds. -/
theorem pyMerge_lookup_ne {α : Type} (k : String) :
    ∀ (b a : List (String × α)), (∀ kv ∈ b, ¬ kv.1 = k) →
      (pyMerge a b).lookup k = a.lookup k
  | [], _, _ => rfl
  | kv :: b', a, h => by
    have h1 : ¬ kv.1 = k := h kv (List.mem_cons_self _ _)
    have hstep : pyMerge a (kv :: b') = pyMerge (dinsert a kv.1 kv.2) b' := rfl
    rw [hstep, pyMerge_lookup_ne k b' (dinsert a kv.1 kv.2)
          (fun x hx => h x (List.mem_cons_of_mem _ hx)),
        lookup_dinsert_ne a kv.1 k kv.2 h1]

/-- Lookup of an element of a key-unique association list. -/
theorem lookup_of_mem_nodup {α : Type} :
    ∀ (l : List (String × α)) (k : String) (v : α),
      (k, v) ∈ l → (l.map (·.1)).Nodup → l.lookup k = some v
  | [], k, v, hmem, _ => absurd hmem (List.not_mem_nil _)
  | (a, b) :: t, k, v, hmem, hnd => by
    rcases List.mem_cons.mp hmem with heq | htail
    · cases heq
      exact lookup_cons_eq _ _ t
    · have hak : ¬ k = a := by
        intro e
        subst e
        have hk : k ∈ t.map (·.1) := List.mem_map.mpr ⟨(k, v), htail, rfl⟩
        exact (List.nodup_cons.mp hnd).1 hk
      rw [lookup_cons_ne k a b t hak]
      exact lookup_of_mem_nodup t k v htail (List.nodup_cons.mp hnd).2

/-- The `fixed_params` dict binds a fixed param's name to its nested
`{'value', 'description'}` record. -/
theorem fixed_params_lookup (params : List Param) (p : Param) (v : String)
    (hp : p ∈ params) (hval : p.value = some v) (hv : ¬ v = "")
    (hnodup : (params.map (·.name)).Nodup) :
    ((params.filter (·.isFixed)).map
      (fun q => (q.name, PVal.fixedRec (q.value.getD "") q.description))).lookup p.name =
      some (PVal.fixedRec v p.description) := by
  have hfix : p.isFixed = true := by simp [Param.isFixed, hval, hv]
  have hmem : (p.name, PVal.fixedRec v p.description) ∈
      (params.filter (·.isFixed)).map
        (fun q => (q.name, PVal.fixedRec (q.value.getD "") q.description)) := by
    refine List.mem_map.mpr ⟨p, List.mem_filter.mpr ⟨hp, hfix⟩, ?_⟩
    simp [hval]
  have hnd : (((params.filter (·.isFixed)).map
      (fun q => (q.name, PVal.fixedRec (q.value.getD "") q.description))).map (·.1)).Nodup := by
    rw [List.map_map]
    exact hnodup.sublist ((params.filter_sublist).map (·.name))
  exact lookup_of_mem_nodup _ _ _ hmem hnd

set_option maxRecDepth 8192 in
/-- C10: in webhook parameter extraction, a fixed parameter is bound in
`found_params` to the nested record `{'value': ..., 'description': ...}`
rather than to its bare literal value (general, whenever the LLM parse
does not rebind that name), dynamically extracted parameters are bound
to the raw JSON values, and consequently the payload the webhook
collaborator receives carries the nested object under the fixed
parameter's name — shown by collaborators that succeed only on those
payload shapes. -/
theorem fixed_params_nested_record :
    (∀ (ext : ExtSvc) (nd : NodeData) (ui : Ctx) (params : List Param)
       (sp vid : String) (conv conv' : Option String)
       (found : List (String × PVal)) (missing : List String)
       (p : Param) (v : String),
       WebhookNode.extract_params_via_llm ext nd ui params sp vid conv =
         .ok (found, missing, conv') →
       p ∈ params → p.value = some v → ¬ v = "" →
       (params.map (·.name)).Nodup →
       (∀ s kvs, ext.jsonLoads s = some kvs → ∀ kv ∈ kvs, ¬ kv.1 = p.name) →
       found.lookup p.name = some (PVal.fixedRec v p.description)) ∧
    (WebhookNode.process extPayloadCheck whFixedNode none "" "" none none =
      .ok { reply := "Webhook doit executed successfully: nested-record-payload",
            next_node := some "s", conversation_id := none }) ∧
    (WebhookNode.process extMixedCheck whMixedNode none "" "" none none =
      .ok { reply := "Webhook doit executed successfully: mixed-payload-ok",
            next_node := some "s", conversation_id := none }) := by
  refine ⟨?_, rfl, rfl⟩
  intro ext nd ui params sp vid conv conv' found missing p v hx hp hval hv hnodup hjson
  have hne : ¬ params = [] := by
    intro e; subst e; exact absurd hp (List.not_mem_nil p)
  simp only [WebhookNode.extract_params_via_llm, if_neg hne] at hx
  split at hx
  · cases hx
    exact fixed_params_lookup params p v hp hval hv hnodup
  · split at hx
    · simp at hx
    · rename_i resp heq
      rcases hj : ext.jsonLoads resp.reply with _ | kvs
      · rw [hj] at hx
        cases hx
        exact fixed_params_lookup params p v hp hval hv hnodup
      · rw [hj] at hx
        cases hx
        rw [pyMerge_lookup_ne p.name _ _ ?hkeys]
        · exact fixed_params_lookup params p v hp hval hv hnodup
        case hkeys =>
          intro x hxm
          rcases List.mem_map.mp hxm with ⟨kv0, hkv0, hxe⟩
          have hne0 : ¬ kv0.1 = p.name :=
            hjson resp.reply kvs hj kv0 (List.mem_of_mem_filter hkv0)
          simpa [← hxe] using hne0

/-- Witness for C10's general clause at the fixed-only node: the
extraction result binds `a` to the nested record. -/
theorem fixed_params_nested_record_witness :
    ([("a", PVal.fixedRec "v" "d")] : List (String × PVal)).lookup "a" =
      some (PVal.fixedRec "v" "d") :=
  fixed_params_nested_record.1 extPayloadCheck whFixedNode []
    [{ name := "a", description := "d", value := some "v" }] "" "" none none
    [("a", PVal.fixedRec "v" "d")] []
    { name := "a", description := "d", value := some "v" } "v"
    rfl (by decide) rfl (by decide) (by decide)
    (by intro s kvs h; simp [extPayloadCheck] at h)

/-- A successful lookup comes from a member of the association list. -/
theorem lookup_mem {α : Type} :
    ∀ (l : List (String × α)) (k : String) (v : α),
      l.lookup k = some v → (k, v) ∈ l
  | [], _, _, h => by simp [List.lookup] at h
  | (a, b) :: t, k, v, h => by
    by_cases hka : k = a
    · subst hka
      rw [lookup_cons_eq] at h
      cases h
      exact List.mem_cons_self _ _
    · rw [lookup_cons_ne k a b t hka] at h
      exact List.mem_cons_of_mem _ (lookup_mem t k v h)

/-- In an `allForced` graph, every node of the dict is a forced message
whose `next` resolves to a node of the dict. -/
theorem allForced_spec (nodes : List (String × NodeData)) (id : String) (nd : NodeData)
    (hall : allForced nodes = true) (hlk : nodes.lookup id = some nd) :
    nd.type = "forced_message" ∧
      ∃ m nd', nd.next = some m ∧ nodes.lookup m = some nd' := by
  have hmem := lookup_mem nodes id nd hlk
  have h := (List.all_eq_true.mp hall) _ hmem
  rw [Bool.and_eq_true] at h
  obtain ⟨h1, h2⟩ := h
  refine ⟨of_decide_eq_true h1, ?_⟩
  rcases hn : nd.next with _ | m
  · rw [hn] at h2; simp at h2
  · rw [hn] at h2
    have h2' : ((nodes.lookup m).isSome) = true := by simpa using h2
    rcases ho : nodes.lookup m with _ | nd'
    · rw [ho] at h2'; simp at h2'
    · exact ⟨m, nd', rfl, ho⟩

/-- In a graph with only truthy ids, any node reached by lookup has a
non-empty id. -/
theorem lookup_truthy (nodes : List (String × NodeData)) (id : String) (nd : NodeData)
    (htr : allTruthyIds nodes = true) (hlk : nodes.lookup id = some nd) :
    ¬ id = "" := by
  have hmem := lookup_mem nodes id nd hlk
  have h := (List.all_eq_true.mp htr) _ hmem
  exact of_decide_eq_true h

/-- In an `allForced` graph with truthy ids, iterated hops stay on
resolvable `forced_message` nodes with non-empty ids. -/
theorem hopN_valid (nodes : List (String × NodeData)) (hall : allForced nodes = true)
    (htr : allTruthyIds nodes = true) :
    ∀ (fuel : Nat) (id : String) (nd : NodeData), nodes.lookup id = some nd →
      ∃ id' nd', hopN nodes fuel (some id) = some id' ∧
        nodes.lookup id' = some nd' ∧ nd'.type = "forced_message" ∧ ¬ id' = ""
  | 0, id, nd, hlk =>
    ⟨id, nd, rfl, hlk, (allForced_spec nodes id nd hall hlk).1,
     lookup_truthy nodes id nd htr hlk⟩
  | fuel + 1, id, nd, hlk => by
    obtain ⟨_, m, nd', hnext, hlk'⟩ := allForced_spec nodes id nd hall hlk
    obtain ⟨id', nd'', h1, h2, h3, h4⟩ := hopN_valid nodes hall htr fuel m nd' hlk'
    exact ⟨id', nd'', by simp [hopN, hop, hlk, hnext, h1], h2, h3, h4⟩

/-- In an `allForced` graph with truthy ids the forced chain runs its
whole budget: starting on any node of the dict it emits exactly `fuel`
replies, keeps the conversation id, and leaves the cursor `fuel` hops
along. -/
theorem forcedChain_allForced (ext : ExtSvc) (nodes : List (String × NodeData))
    (sp vid : String) (hall : allForced nodes = true)
    (htr : allTruthyIds nodes = true) :
    ∀ (fuel : Nat) (id : String) (nd : NodeData) (conv : Option String)
      (msgs : List AgentMsg),
      nodes.lookup id = some nd →
      ∃ msgs' : List AgentMsg,
        forcedChain ext nodes sp vid fuel (some id) conv msgs =
          .ok (hopN nodes fuel (some id), conv, msgs ++ msgs', 0) ∧
        msgs'.length = fuel
  | 0, id, nd, conv, msgs, hlk => ⟨[], by simp [forcedChain, hopN], rfl⟩
  | fuel + 1, id, nd, conv, msgs, hlk => by
    obtain ⟨hty, m, nd', hnext, hlk'⟩ := allForced_spec nodes id nd hall hlk
    have hid : ¬ id = "" := lookup_truthy nodes id nd htr hlk
    have hproc : process_node ext nodes nd [("user_text", .str "")] sp vid conv =
        .ok (some { reply := safe_format (nd.forced_text.getD (nd.text.getD "Forced message"))
                      [("user_text", .str "")],
                    next_node := nd.next, conversation_id := conv }) := by
      simp [process_node, hty]
    obtain ⟨msgs'', hrec, hlen⟩ := forcedChain_allForced ext nodes sp vid hall htr fuel m nd' conv
        (msgs ++ [(safe_format (nd.forced_text.getD (nd.text.getD "Forced message"))
                      [("user_text", .str "")], none)]) hlk'
    refine ⟨(safe_format (nd.forced_text.getD (nd.text.getD "Forced message"))
              [("user_text", .str "")], none) :: msgs'', ?_, by simp [hlen]⟩
    simp only [forcedChain, if_neg hid, hlk, hty, if_pos, hproc]
    rw [hnext, hrec]
    simp [hopN, hop, hlk, hnext]

/-- A resolved cursor names a node of the dict. -/
theorem resolveNodeId_isSome (nodes : List (String × NodeData))
    (cur start : Option String) (sid : String)
    (h : resolveNodeId nodes cur start = some sid) :
    ((nodes.lookup sid).isSome) = true :=
  (resolveNodeId_truthy nodes cur start sid h).2

/-- C3 counterexample: an 11-node cyclic `forced_message` chain with no
input-gating exit (every node is forced and every `next` resolves, so
the graph is inside the claim's scope) that passes through a node whose
id is the empty string.  Python's loop guard `current_node_id and ...`
treats the falsy `""` like `None`, so a single turn emits one reply and
stops — not the claimed 10. -/
theorem forced_cycle_empty_id_one_reply :
    allForced (mkNodes emptyIdCycleAgent.nodes) = true ∧
    (mkNodes emptyIdCycleAgent.nodes).length = 11 ∧
    send_message extUnused emptyIdCycleAgent
        { current_node := some "f0", conversation_id := none } "x" =
      .ok ({ reply := "msg0", next_node := some "", conversation_id := none,
             messages := some ["msg0"] },
           { current_node := some "", conversation_id := none }) ∧
    ¬ (["msg0"] : List String).length = 10 :=
  ⟨by decide, by decide, rfl, by decide⟩

/-- C3 as amended: on any graph whose nodes are all `forced_message`
with resolving successors and Python-truthy (non-empty) ids — in
particular a cyclic forced chain of length greater than 10 with no
input-gating exit and no empty-string id — one `send_message` turn
produces exactly 10 agent replies and ends, leaving the cursor where
the 10th hop landed.  (A chain through a falsy `""` id stops there
instead; see the counterexample theorem.) -/
theorem forced_cycle_ten_replies (ext : ExtSvc) (agent : AgentL) (sess : SessionSt)
    (msg : String) (sid : String)
    (hall : allForced (mkNodes agent.nodes) = true)
    (htr : allTruthyIds (mkNodes agent.nodes) = true)
    (hres : resolveNodeId (mkNodes agent.nodes) sess.current_node agent.start_node = some sid) :
    ∃ texts : List String,
      send_message ext agent sess msg =
        .ok ({ reply := "", next_node := hopN (mkNodes agent.nodes) 10 (some sid),
               conversation_id := sess.conversation_id, messages := some texts },
             { current_node := hopN (mkNodes agent.nodes) 10 (some sid),
               conversation_id := sess.conversation_id }) ∧
      texts.length = 10 := by
  have hsome := resolveNodeId_isSome _ _ _ _ hres
  rcases hlk : (mkNodes agent.nodes).lookup sid with _ | nd
  · rw [hlk] at hsome; simp at hsome
  · obtain ⟨msgs', hchain, hlen⟩ := forcedChain_allForced ext (mkNodes agent.nodes)
        agent.system_prompt agent.voice_id hall htr 10 sid nd sess.conversation_id [] hlk
    rw [List.nil_append] at hchain
    obtain ⟨id', nd', hhop, hlk', hty', hid'⟩ :=
      hopN_valid (mkNodes agent.nodes) hall htr 10 sid nd hlk
    have hmsgs_ne : msgs' ≠ [] := by
      intro e; rw [e] at hlen; simp at hlen
    refine ⟨msgs'.map (·.1), ?_, by simp [hlen]⟩
    simp only [send_message]
    rw [hres]
    simp [hchain, hhop, hlk', hty', hid', hmsgs_ne, hlen, List.length_map]

/-- Witness for C3 on the 11-node forced cycle: ten replies, cursor on
the 11th node. -/
theorem forced_cycle_ten_replies_witness :
    send_message extUnused cycleAgent
        { current_node := some "f0", conversation_id := none } "x" =
      .ok ({ reply := "", next_node := some "f10", conversation_id := none,
             messages := some ["msg0", "msg1", "msg2", "msg3", "msg4",
                               "msg5", "msg6", "msg7", "msg8", "msg9"] },
           { current_node := some "f10", conversation_id := none }) ∧
    (["msg0", "msg1", "msg2", "msg3", "msg4",
      "msg5", "msg6", "msg7", "msg8", "msg9"] : List String).length = 10 := by
  obtain ⟨texts, hsend, hlen⟩ := forced_cycle_ten_replies extUnused cycleAgent
      { current_node := some "f0", conversation_id := none } "x" "f0"
      (by decide) (by decide) (by decide)
  have hconc : send_message extUnused cycleAgent
      { current_node := some "f0", conversation_id := none } "x" =
    .ok ({ reply := "", next_node := some "f10", conversation_id := none,
           messages := some ["msg0", "msg1", "msg2", "msg3", "msg4",
                             "msg5", "msg6", "msg7", "msg8", "msg9"] },
         { current_node := some "f10", conversation_id := none }) := rfl
  exact ⟨hconc, rfl⟩

/-- `substAux` on the empty template is empty for any fuel. -/
theorem substAux_nil (rep : List Char → List Char) (fuel : Nat) :
    substAux rep fuel [] = [] := by
  cases fuel <;> rfl

/-- With enough fuel, a template without placeholders is untouched. -/
theorem substAux_no_ph (rep : List Char → List Char) :
    ∀ (l : List Char) (fuel : Nat), l.length ≤ fuel →
      hasPlaceholder l = false → substAux rep fuel l = l
  | [], fuel, _, _ => substAux_nil rep fuel
  | c :: rest, 0, hle, _ => absurd hle (by simp)
  | c :: rest, fuel + 1, hle, hph => by
    simp only [hasPlaceholder] at hph
    by_cases hc : c = '\x7b'
    · rw [if_pos hc] at hph
      rw [Bool.or_eq_false_iff] at hph
      obtain ⟨h1, h2⟩ := hph
      rcases hs : scanExpr [] rest with _ | pr
      · simp [substAux, hc, hs,
              substAux_no_ph rep rest fuel (Nat.le_of_succ_le_succ hle) h2]
      · rw [hs] at h1; simp at h1
    · rw [if_neg hc] at hph
      simp [substAux, hc,
            substAux_no_ph rep rest fuel (Nat.le_of_succ_le_succ hle) hph]

/-- Scanning a brace-free nonempty body followed by a closing brace
succeeds with that body. -/
theorem scanExpr_plain :
    ∀ (ks acc rest : List Char), ks ≠ [] →
      (∀ c ∈ ks, ¬ c = '\x7b' ∧ ¬ c = '\x7d') →
      scanExpr acc (ks ++ '\x7d' :: rest) = some (acc.reverse ++ ks, rest)
  | [], _, _, hne, _ => absurd rfl hne
  | c :: ks', acc, rest, _, hch => by
    have hc := hch c (List.mem_cons_self _ _)
    rcases ks' with _ | ⟨d, ks''⟩
    · simp [scanExpr, hc.1, hc.2]
    · have ih := scanExpr_plain (d :: ks'') (c :: acc) rest (by simp)
          (fun x hx => hch x (List.mem_cons_of_mem _ hx))
      rw [List.cons_append, scanExpr, if_neg hc.2, if_neg hc.1, ih]
      simp [List.append_assoc]

/-- Splitting a separator-free path yields one segment. -/
theorem splitPathAux_plain :
    ∀ (l acc : List Char), (∀ c ∈ l, isPathSep c = false) →
      splitPathAux acc l = [acc.reverse ++ l]
  | [], acc, _ => by simp [splitPathAux]
  | c :: t, acc, h => by
    have hc := h c (List.mem_cons_self _ _)
    rw [splitPathAux, if_neg (by simp [hc])]
    rw [splitPathAux_plain t (c :: acc) (fun x hx => h x (List.mem_cons_of_mem _ hx))]
    simp

/-- `dropWhile` of an everywhere-false predicate is the identity. -/
theorem dropWhile_all_false {p : Char → Bool} :
    ∀ l : List Char, (∀ c ∈ l, p c = false) → l.dropWhile p = l
  | [], _ => rfl
  | c :: t, h => by
    rw [List.dropWhile_cons, if_neg (by simp [h c (List.mem_cons_self _ _)])]

/-- Stripping a whitespace-free string is the identity. -/
theorem pyStripL_id (l : List Char) (h : ∀ c ∈ l, pyWS c = false) :
    pyStripL l = l := by
  unfold pyStripL
  rw [dropWhile_all_false l h,
      dropWhile_all_false l.reverse (fun c hc => h c (List.mem_reverse.mp hc)),
      List.reverse_reverse]

/-- C9: `safe_format` leaves a template without `{expr}` placeholders
unchanged for every context; for a context that does not bind a plain
key `k`, formatting the single placeholder `{k}` yields exactly
`<missing:k>`; and the embedded formatter is a total function (no
exception channel was needed anywhere in its translation, mirroring
that the Python `safe_format` never raises). -/
theorem safe_format_spec :
    (∀ (t : String) (ctx : Ctx), hasPlaceholder t.toList = false →
      safe_format t ctx = t) ∧
    (∀ (k : String) (ctx : Ctx), ¬ k = "" →
      (∀ c ∈ k.toList, plainKeyChar c = true) →
      ctx.lookup k = none →
      safe_format ("\x7b" ++ k ++ "\x7d") ctx = "<missing:" ++ k ++ ">") := by
  constructor
  · intro t ctx hph
    obtain ⟨td⟩ := t
    show String.mk (substAux (replacer ctx) td.length td) = ⟨td⟩
    rw [substAux_no_ph (replacer ctx) td td.length (Nat.le_refl _) hph]
  · intro k ctx hne hch hctx
    obtain ⟨d⟩ := k
    have hdne : d ≠ [] := by
      intro e
      exact hne (by rw [e])
    have hbrace : ∀ c ∈ d, ¬ c = '\x7b' ∧ ¬ c = '\x7d' := by
      intro c hcm
      have h' := hch c hcm
      simp [plainKeyChar] at h'
      exact ⟨h'.1, h'.2.1⟩
    have hsep : ∀ c ∈ d, isPathSep c = false := by
      intro c hcm
      have h' := hch c hcm
      simp [plainKeyChar] at h'
      exact h'.2.2.1
    have hws : ∀ c ∈ d, pyWS c = false := by
      intro c hcm
      have h' := hch c hcm
      simp [plainKeyChar] at h'
      exact h'.2.2.2
    show String.mk (substAux (replacer ctx)
        ('\x7b' :: (d ++ ['\x7d'])).length ('\x7b' :: (d ++ ['\x7d']))) = _
    rw [List.length_cons]
    simp only [substAux, if_pos rfl]
    rw [scanExpr_plain d [] [] hdne hbrace]
    simp only [List.reverse_nil, List.nil_append]
    rw [substAux_nil, List.append_nil]
    show String.mk (replacer ctx d) = _
    have hsp : splitPath d = [d] := by
      unfold splitPath
      rw [splitPathAux_plain d [] hsep]
      simp [hdne]
    unfold replacer
    rw [pyStripL_id d hws, hsp]
    show String.mk (pyStrOfValue (getValueWalk
        ((ctx.lookup ⟨d⟩).getD (.str ("<missing:" ++ (⟨d⟩ : String) ++ ">"))) [])).toList = _
    rw [hctx]
    rfl

/-- Witness for C9 at a placeholder-free template and at `{name}`
against an empty context. -/
theorem safe_format_spec_witness :
    safe_format "no placeholders here" [("user_text", .str "x")] = "no placeholders here" ∧
    safe_format "\x7bname\x7d" ([] : Ctx) = "<missing:name>" :=
  ⟨safe_format_spec.1 "no placeholders here" [("user_text", .str "x")] (by decide),
   safe_format_spec.2 "name" [] (by decide) (by decide) rfl⟩
